import Mathlib

/-
  Verification of the wavelength background-task engine.

  Shallow embedding of the task store, cancel/retrieve/stream operations,
  the provider streaming loops, provider resolution, and usage extraction,
  translated from:
    src/background_task_manager.py
    src/backend/enhanced_task_manager.py
    src/backend/provider_registry.py
    src/backend/providers/openrouter.py, openai.py, anthropic.py

  Python dicts are modelled as association lists with first-key-wins lookup
  and in-place update; JSON payloads as the inductive JVal; time.time() as a
  Nat clock threaded through the functions; uuid values as parameters.
-/

namespace Wavelength

/-- JSON-shaped values (payloads parsed from the wire, usage records). -/
inductive JVal where
  | jnull : JVal
  | jbool : Bool → JVal
  | jnum : Int → JVal
  | jstr : String → JVal
  | jarr : List JVal → JVal
  | jobj : List (String × JVal) → JVal
deriving Repr

/-- Python dict lookup `d.get(k)` over an association list (first match). -/
def alookup {α : Type} (l : List (String × α)) (k : String) : Option α :=
  (l.find? (fun p => p.1 == k)).map (fun p => p.2)

/-- Python dict item assignment `d[k] = v`: replace the first binding of `k`
    in place, or append a new binding at the end (insertion order). -/
def aset {α : Type} : List (String × α) → String → α → List (String × α)
  | [], k, v => [(k, v)]
  | (k', v') :: rest, k, v =>
      if k' == k then (k, v) :: rest else (k', v') :: aset rest k v

/-- Python `d.update(other)`: assign every binding of `other` into `d`. -/
def aupdate {α : Type} (d other : List (String × α)) : List (String × α) :=
  other.foldl (fun acc p => aset acc p.1 p.2) d

/-- Python truthiness of a JSON value. -/
def jtruthy : JVal → Bool
  | JVal.jnull => false
  | JVal.jbool b => b
  | JVal.jnum n => n != 0
  | JVal.jstr s => s != ""
  | JVal.jarr xs => !xs.isEmpty
  | JVal.jobj fs => !fs.isEmpty

/-- Python falsiness of a JSON value. -/
def jfalsy (v : JVal) : Bool := !jtruthy v

/-- Key lookup inside a JSON value: `v[k]` / `k in v` for object values.
    Non-object values yield `none` (no key present). -/
def jlookup : JVal → String → Option JVal
  | JVal.jobj fs, k => alookup fs k
  | _, _ => none

/-- Index lookup `v[i]` for array values. -/
def jindex : JVal → Nat → Option JVal
  | JVal.jarr xs, i => xs.get? i
  | _, _ => none

/-- Path lookup `v[k1][k2]...`, absent as soon as one key is missing. -/
def jpath : JVal → List String → Option JVal
  | v, [] => some v
  | v, k :: ks => match jlookup v k with
      | some w => jpath w ks
      | none => none

/-- Task lifecycle states, from `TaskStatus` in src/background_task_manager.py. -/
inductive TaskStatus where
  | queued : TaskStatus
  | inProgress : TaskStatus
  | completed : TaskStatus
  | failed : TaskStatus
  | cancelled : TaskStatus
deriving DecidableEq, Repr

/-- A status is terminal when it is completed, failed or cancelled. -/
def TaskStatus.isTerminal : TaskStatus → Bool
  | TaskStatus.completed => true
  | TaskStatus.failed => true
  | TaskStatus.cancelled => true
  | _ => false

/-- One streaming event stored into `task.stream_events` by a provider. -/
structure StreamEvent where
  sequence_number : Nat
  data : JVal
  timestamp : Nat
deriving Repr

/-- The `BackgroundTask` dataclass of src/background_task_manager.py. -/
structure BackgroundTask where
  id : String
  status : TaskStatus
  model : String
  input : List JVal
  reasoning : Option JVal := none
  created_at : Nat := 0
  started_at : Option Nat := none
  completed_at : Option Nat := none
  output_text : Option String := none
  output : Option JVal := none
  error : Option String := none
  usage : Option (List (String × JVal)) := none
  openrouter_generation_id : Option JVal := none
  stream_cursor : Nat := 0
  stream_events : List StreamEvent := []
  reasoning_summary : Option String := none
deriving Repr

/-- The conditional mutation done by `cancel_response` on a found task
    (src/background_task_manager.py lines 240-242): if the status is queued
    or in progress, set status to cancelled and stamp `completed_at`. -/
def cancelUpdate (clk : Nat) (t : BackgroundTask) : BackgroundTask :=
  if t.status = TaskStatus.queued ∨ t.status = TaskStatus.inProgress then
    { t with status := TaskStatus.cancelled, completed_at := some clk }
  else t

/-- `BackgroundTaskManager.retrieve_response`: dictionary lookup by id. -/
def retrieve_response (tasks : List (String × BackgroundTask)) (rid : String) :
    Option BackgroundTask :=
  alookup tasks rid

/-- `BackgroundTaskManager.cancel_response`: look the task up; when present
    and non-terminal, mutate it in place; return the (possibly mutated) task
    and the resulting store. A missing id returns `none` and leaves the
    store untouched. -/
def cancel_response (tasks : List (String × BackgroundTask)) (rid : String)
    (clk : Nat) : Option BackgroundTask × List (String × BackgroundTask) :=
  match alookup tasks rid with
  | none => (none, tasks)
  | some t =>
      let t2 := cancelUpdate clk t
      (some t2, aset tasks rid t2)

/-- One polling iteration of `stream_response`'s tail loop, as observed by
    the generator: the status read at the `while` check, the event log read
    after the sleep, and the log length re-read after the yields (the
    `last_count = len(task.stream_events)` line runs after yielding, at a
    later moment than the slice). -/
structure PollIter where
  status : TaskStatus
  log : List StreamEvent
  lateLen : Nat

/-- The tail loop of `stream_response` (src/background_task_manager.py lines
    265-272): while the status reads non-terminal, yield the slice of the log
    past `last_count` when it grew, then reset `last_count` from the later
    length read. A terminal status read ends the sequence. -/
def streamPoll (last : Nat) : List PollIter → List StreamEvent
  | [] => []
  | it :: its =>
      if it.status = TaskStatus.queued ∨ it.status = TaskStatus.inProgress then
        if it.log.length > last then
          it.log.drop last ++ streamPoll it.lateLen its
        else
          streamPoll last its
      else []

/-- The replay cursor of `stream_response`:
    `starting_after + 1 if starting_after is not None else 0`. -/
def startIdxOf : Option Nat → Nat
  | some a => a + 1
  | none => 0

/-- `BackgroundTaskManager.stream_response`: replay the historical slice
    `stream_events[start_idx:]` taken at entry, then (status and length read
    together after the historical yields, as `first`) tail the log while
    non-terminal. A missing id yields nothing. -/
def stream_response (tasks : List (String × BackgroundTask)) (rid : String)
    (starting_after : Option Nat) (first : TaskStatus × Nat)
    (iters : List PollIter) : List StreamEvent :=
  match alookup tasks rid with
  | none => []
  | some t =>
      let hist := t.stream_events.drop (startIdxOf starting_after)
      if first.1 = TaskStatus.queued ∨ first.1 = TaskStatus.inProgress then
        hist ++ streamPoll first.2 iters
      else hist

/-- Provider kinds, from `ProviderType` in src/backend/provider_registry.py. -/
inductive ProviderType where
  | openrouter : ProviderType
  | openai : ProviderType
  | anthropic : ProviderType
  | google : ProviderType
  | xai : ProviderType
deriving DecidableEq, Repr

/-- The registry state: which providers have credentials configured, and the
    static model-name-to-provider dictionary built at initialization. -/
structure ProviderRegistry where
  providers : List ProviderType
  modelMap : List (String × ProviderType)

/-- The OpenRouter model list of `_build_model_map`. -/
def openrouter_models : List String :=
  ["openai/o3", "openai/o3-pro", "openai/o3-mini",
   "openai/o1", "openai/o1-mini", "openai/o1-preview",
   "openai/gpt-4o", "openai/gpt-4o-mini", "openai/gpt-4-turbo",
   "openai/gpt-3.5-turbo",
   "anthropic/claude-3.5-sonnet", "anthropic/claude-3.5-haiku",
   "anthropic/claude-3-opus", "anthropic/claude-3-sonnet", "anthropic/claude-3-haiku",
   "google/gemini-pro-1.5", "google/gemini-flash-1.5",
   "xai/grok-beta", "xai/grok-2-1212",
   "meta-llama/llama-3.2-90b-vision-instruct",
   "microsoft/wizardlm-2-8x22b",
   "mistralai/mistral-large"]

/-- The direct OpenAI model list of `_build_model_map`. -/
def openai_models : List String :=
  ["o3", "o3-pro", "o3-mini",
   "o1", "o1-mini", "o1-preview",
   "gpt-4o", "gpt-4o-mini", "gpt-4-turbo",
   "gpt-3.5-turbo"]

/-- The direct Anthropic model list of `_build_model_map`. -/
def anthropic_models : List String :=
  ["claude-3-5-sonnet-20241022", "claude-3-5-haiku-20241022",
   "claude-3-opus-20240229", "claude-3-sonnet-20240229", "claude-3-haiku-20240307"]

/-- `ProviderRegistry._build_model_map`, parameterized by the configured
    providers: OpenRouter names map to OpenRouter; direct OpenAI and
    Anthropic names map to their provider when configured, otherwise to an
    OpenRouter-namespaced alias (Anthropic names lose their date suffix,
    `model.split('-20')[0]`). -/
def build_model_map (configured : List ProviderType) : List (String × ProviderType) :=
  let m1 := openrouter_models.foldl
    (fun acc s => aset acc s ProviderType.openrouter) []
  let m2 := openai_models.foldl
    (fun acc s =>
      if ProviderType.openai ∈ configured then aset acc s ProviderType.openai
      else aset acc ("openai/" ++ s) ProviderType.openrouter) m1
  anthropic_models.foldl
    (fun acc s =>
      if ProviderType.anthropic ∈ configured then aset acc s ProviderType.anthropic
      else aset acc ("anthropic/" ++ (s.splitOn "-20").headD s) ProviderType.openrouter) m2

/-- The repeated check of `get_provider_for_model`: a map hit counts only
    when the mapped provider is actually configured
    (`if provider_type and provider_type in self._providers`). -/
def lookupConfigured (reg : ProviderRegistry) (m : String) : Option ProviderType :=
  match alookup reg.modelMap m with
  | some pt => if pt ∈ reg.providers then some pt else none
  | none => none

/-- The namespace strings tried by `get_provider_for_model`. -/
def providerNamespaces : List String := ["openai/", "anthropic/", "google/", "xai/"]

/-- The retry loop of `get_provider_for_model`: first configured hit of a
    namespaced model name wins. -/
def tryNamespaces (reg : ProviderRegistry) (m : String) :
    List String → Option ProviderType
  | [] => none
  | p :: ps =>
      match lookupConfigured reg (p ++ m) with
      | some pt => some pt
      | none => tryNamespaces reg m ps

/-- `ProviderRegistry.get_provider_for_model` (src/backend/provider_registry.py
    lines 119-137): direct configured lookup, then namespaced retries, then
    the OpenRouter default when configured, else none. -/
def get_provider_for_model (reg : ProviderRegistry) (m : String) : Option ProviderType :=
  match lookupConfigured reg m with
  | some pt => some pt
  | none =>
      match tryNamespaces reg m providerNamespaces with
      | some pt => some pt
      | none =>
          if ProviderType.openrouter ∈ reg.providers then some ProviderType.openrouter
          else none

/-- Resolution as the specification words it: the model-to-provider table
    restricted to configured providers. -/
def restrictedLookup (reg : ProviderRegistry) (m : String) : Option ProviderType :=
  (alookup reg.modelMap m).bind
    (fun pt => if pt ∈ reg.providers then some pt else none)

/-- Resolution as the specification words it, stage by stage: (a) exact match
    in the restricted table, else (b) first hit among namespaced retries,
    else (c) the configured OpenRouter default, else (d) none. -/
def resolveSpec (reg : ProviderRegistry) (m : String) : Option ProviderType :=
  (restrictedLookup reg m).orElse (fun _ =>
    (providerNamespaces.findSome? (fun p => restrictedLookup reg (p ++ m))).orElse (fun _ =>
      if ProviderType.openrouter ∈ reg.providers then some ProviderType.openrouter
      else none))

/-- `EnhancedBackgroundTaskManager._extract_usage_from_stats`
    (src/backend/enhanced_task_manager.py lines 104-137; duplicated inline in
    `BackgroundTaskManager._execute_task` lines 155-184): seed the record
    from top-level `tokens_prompt`/`tokens_completion`/`total_cost`, overlay
    the `usage` sub-dict, then probe the reasoning-token spots; the
    `native_tokens_details` block prefers its direct `reasoning_tokens` and
    only otherwise (elif) consults its `completion_tokens_details`.
    A present but non-dict sub-object makes Python raise; that surfaces here
    as `Except.error`, caught at the task-execution boundary. -/
def extract_usage_from_stats (stats : List (String × JVal)) :
    Except String (List (String × JVal)) :=
  let usage0 : List (String × JVal) :=
    [("prompt_tokens", (alookup stats "tokens_prompt").getD (JVal.jnum 0)),
     ("completion_tokens", (alookup stats "tokens_completion").getD (JVal.jnum 0)),
     ("total_tokens", (alookup stats "total_cost").getD (JVal.jnum 0)),
     ("reasoning_tokens", JVal.jnum 0)]
  let step1 : Except String (List (String × JVal)) :=
    match alookup stats "usage" with
    | none => Except.ok usage0
    | some (JVal.jobj ufs) =>
        let u2 := aupdate usage0 ufs
        match alookup ufs "completion_tokens_details" with
        | none => Except.ok u2
        | some (JVal.jobj cfs) =>
            match alookup cfs "reasoning_tokens" with
            | some rt => Except.ok (aset u2 "reasoning_tokens" rt)
            | none => Except.ok u2
        | some _ => Except.error "TypeError"
    | some _ => Except.error "TypeError"
  match step1 with
  | Except.error e => Except.error e
  | Except.ok usage1 =>
      let step2 : Except String (List (String × JVal)) :=
        match alookup stats "native_tokens_details" with
        | none => Except.ok usage1
        | some (JVal.jobj dfs) =>
            match alookup dfs "reasoning_tokens" with
            | some rt => Except.ok (aset usage1 "reasoning_tokens" rt)
            | none =>
                match alookup dfs "completion_tokens_details" with
                | none => Except.ok usage1
                | some (JVal.jobj cfs) =>
                    match alookup cfs "reasoning_tokens" with
                    | some rt => Except.ok (aset usage1 "reasoning_tokens" rt)
                    | none => Except.ok usage1
                | some _ => Except.error "TypeError"
        | some _ => Except.error "TypeError"
      match step2 with
      | Except.error e => Except.error e
      | Except.ok usage2 =>
          match alookup stats "reasoning_tokens" with
          | some rt => Except.ok (aset usage2 "reasoning_tokens" rt)
          | none => Except.ok usage2

/-- The default usage record the claim says extraction starts from. -/
def usageDefaults : List (String × JVal) :=
  [("prompt_tokens", JVal.jnum 0), ("completion_tokens", JVal.jnum 0),
   ("total_tokens", JVal.jnum 0), ("reasoning_tokens", JVal.jnum 0)]

/-- The reasoning-token search as the claim words it: probe the four spots
    in order, the last match found wins. -/
def claimedReasoningSearch (stats : List (String × JVal)) : Option JVal :=
  let s := JVal.jobj stats
  let cands := [jpath s ["usage", "completion_tokens_details", "reasoning_tokens"],
                jpath s ["native_tokens_details", "reasoning_tokens"],
                jpath s ["native_tokens_details", "completion_tokens_details", "reasoning_tokens"],
                jpath s ["reasoning_tokens"]]
  (cands.filterMap id).getLast?

/-- Usage extraction as the claim words it: defaults, overlaid with the
    `usage` sub-object, reasoning tokens from the last-match search. -/
def extract_usage_claimed (stats : List (String × JVal)) : List (String × JVal) :=
  let overlaid := match alookup stats "usage" with
    | some (JVal.jobj ufs) => aupdate usageDefaults ufs
    | _ => usageDefaults
  match claimedReasoningSearch stats with
  | some rt => aset overlaid "reasoning_tokens" rt
  | none => overlaid

/-- The seeded usage record of the amended claim: the payload's top-level
    `tokens_prompt`/`tokens_completion`/`total_cost` (each defaulting to 0)
    with reasoning tokens 0. -/
def usageSeed (stats : List (String × JVal)) : List (String × JVal) :=
  [("prompt_tokens", (alookup stats "tokens_prompt").getD (JVal.jnum 0)),
   ("completion_tokens", (alookup stats "tokens_completion").getD (JVal.jnum 0)),
   ("total_tokens", (alookup stats "total_cost").getD (JVal.jnum 0)),
   ("reasoning_tokens", JVal.jnum 0)]

/-- The `completion_tokens_details.reasoning_tokens` probe of the amended
    claim: no candidate when the sub-dict is absent or lacks the key; a
    present non-dict sub-object raises (Python TypeError). -/
def probeCtdReasoning (fs : List (String × JVal)) : Except String (Option JVal) :=
  match alookup fs "completion_tokens_details" with
  | none => Except.ok none
  | some (JVal.jobj cfs) => Except.ok (alookup cfs "reasoning_tokens")
  | some _ => Except.error "TypeError"

/-- The overlay stage of the amended claim: the seed overlaid with any
    `usage` sub-object, paired with the
    `usage.completion_tokens_details.reasoning_tokens` candidate; a present
    non-dict `usage` raises. -/
def usageOverlayAmended (stats : List (String × JVal)) :
    Except String (List (String × JVal) × Option JVal) :=
  match alookup stats "usage" with
  | none => Except.ok (usageSeed stats, none)
  | some (JVal.jobj ufs) =>
      match probeCtdReasoning ufs with
      | Except.error e => Except.error e
      | Except.ok c => Except.ok (aupdate (usageSeed stats) ufs, c)
  | some _ => Except.error "TypeError"

/-- The `native_tokens_details` candidate of the amended claim: its direct
    `reasoning_tokens` when present — excluding (elif) the nested probe —
    only otherwise its `completion_tokens_details` probe; a present non-dict
    sub-object raises. -/
def nativeCandidateAmended (stats : List (String × JVal)) : Except String (Option JVal) :=
  match alookup stats "native_tokens_details" with
  | none => Except.ok none
  | some (JVal.jobj dfs) =>
      match alookup dfs "reasoning_tokens" with
      | some rt => Except.ok (some rt)
      | none => probeCtdReasoning dfs
  | some _ => Except.error "TypeError"

/-- Apply an optional reasoning-token candidate to a usage record. -/
def applyReasoning (base : List (String × JVal)) : Option JVal → List (String × JVal)
  | some rt => aset base "reasoning_tokens" rt
  | none => base

/-- The last present candidate of a search list (last match wins). -/
def lastSome : List (Option JVal) → Option JVal
  | [] => none
  | c :: cs =>
      match lastSome cs with
      | some v => some v
      | none => c

/-- Usage extraction as the amended claim words it: seed from the top-level
    token fields, overlay any `usage` sub-object, then set reasoning tokens
    to the last match among
    `usage.completion_tokens_details.reasoning_tokens`, the
    `native_tokens_details` candidate (direct value excluding the nested
    probe) and the top-level `reasoning_tokens`; ill-shaped sub-objects
    raise, caught at the task-execution boundary. -/
def extract_usage_amended (stats : List (String × JVal)) :
    Except String (List (String × JVal)) :=
  match usageOverlayAmended stats with
  | Except.error e => Except.error e
  | Except.ok (base, cUsage) =>
      match nativeCandidateAmended stats with
      | Except.error e => Except.error e
      | Except.ok cNative =>
          Except.ok (applyReasoning base
            (lastSome [cUsage, cNative, alookup stats "reasoning_tokens"]))

/-- Python `str.strip()`: drop whitespace from both ends, computed over the
    character list. -/
def pyStrip (s : String) : String :=
  ⟨((s.data.dropWhile Char.isWhitespace).reverse.dropWhile Char.isWhitespace).reverse⟩

/-- Whether the first character list begins the second. -/
def charsBeginWith : List Char → List Char → Bool
  | [], _ => true
  | _ :: _, [] => false
  | p :: ps, c :: cs => p == c && charsBeginWith ps cs

/-- Python `str.startswith(pre)`, computed over the character lists. -/
def pyStartsWith (s pre : String) : Bool := charsBeginWith pre.data s.data

/-- One line received from the streaming HTTP body, already utf-8 decoded.
    `parsed` is the oracle for `json.loads` applied to the payload after the
    `data: ` framing: `none` models a `json.JSONDecodeError`. -/
structure SSELine where
  content : String
  parsed : Option JVal

/-- The local loop state of a provider's `create_completion`. -/
structure ProvState where
  content_buffer : List String
  reasoning_buffer : List String
  sequence_number : Nat
  generation_id : Option JVal
  in_reasoning : Bool
deriving Repr

/-- Loop-state initialization of `create_completion`. -/
def provInit : ProvState :=
  { content_buffer := []
    reasoning_buffer := []
    sequence_number := 0
    generation_id := none
    in_reasoning := false }

/-- The generation-id capture of the OpenRouter/OpenAI line loops
    (`if 'id' in data and not generation_id:`), identical in both sources:
    store the payload's `id` into the task and the local variable when the
    local variable is still falsy. -/
def orCaptureId (t : BackgroundTask) (st : ProvState) (data : JVal) :
    BackgroundTask × ProvState :=
  match jlookup data "id" with
  | some v =>
      if st.generation_id.all jfalsy then
        ({ t with openrouter_generation_id := some v }, { st with generation_id := some v })
      else (t, st)
  | none => (t, st)

/-- The `choices[0].delta` processing of the OpenRouter line loop: buffer a
    non-null string content fragment, then buffer reasoning text found in
    `delta.reasoning` or (elif) `delta.thoughts` when truthy. -/
def orChoicesUpdate (st : ProvState) (data : JVal) : ProvState :=
  match jlookup data "choices" with
  | some c =>
      if jtruthy c then
        match jindex c 0 with
        | some choice =>
            match jlookup choice "delta" with
            | some delta =>
                let stC := match jlookup delta "content" with
                  | some (JVal.jstr s) =>
                      { st with content_buffer := st.content_buffer ++ [s] }
                  | _ => st
                let thoughtsV : Option JVal :=
                  match jlookup delta "thoughts" with
                  | some JVal.jnull => none
                  | some w => some w
                  | none => none
                let rt : Option JVal :=
                  match jlookup delta "reasoning" with
                  | some JVal.jnull => thoughtsV
                  | some v => some v
                  | none => thoughtsV
                match rt with
                | some v =>
                    if jtruthy v then
                      match v with
                      | JVal.jstr s =>
                          { stC with
                            reasoning_buffer := stC.reasoning_buffer ++ [s]
                            in_reasoning := true }
                      | _ => { stC with in_reasoning := true }
                    else stC
                | none => stC
            | none => st
        | none => st
      else st
  | none => st

/-- The top-level reasoning probe of the OpenRouter line loop: a non-null
    `data.reasoning` marks reasoning seen, buffering it when it is a string
    or a dict with a `content` entry. -/
def orTopReasoningUpdate (st : ProvState) (data : JVal) : ProvState :=
  match jlookup data "reasoning" with
  | some JVal.jnull => st
  | some (JVal.jstr s) =>
      { st with
        reasoning_buffer := st.reasoning_buffer ++ [s]
        in_reasoning := true }
  | some (JVal.jobj fs) =>
      match alookup fs "content" with
      | some (JVal.jstr s2) =>
          { st with
            reasoning_buffer := st.reasoning_buffer ++ [s2]
            in_reasoning := true }
      | _ => { st with in_reasoning := true }
  | some _ => { st with in_reasoning := true }
  | none => st

/-- One iteration of `OpenRouterProvider.create_completion`'s line loop
    (src/backend/providers/openrouter.py lines 93-155), after the
    cancellation check: framing checks, `[DONE]` sentinel, parse-failure
    skip, generation-id capture, content/reasoning buffering, event append.
    Returns the task, the state, the clock and a stop flag. -/
def openRouterStep (t : BackgroundTask) (st : ProvState) (clk : Nat) (l : SSELine) :
    BackgroundTask × ProvState × Nat × Bool :=
  let line := pyStrip l.content
  if line = "" ∨ ¬ pyStartsWith line "data: " then (t, st, clk, false)
  else
    let data_str := line.drop 6
    if data_str = "[DONE]" then (t, st, clk, true)
    else
      match l.parsed with
      | none => (t, st, clk, false)
      | some data =>
          let t1 := (orCaptureId t st data).1
          let stId := (orCaptureId t st data).2
          let stTop := orTopReasoningUpdate (orChoicesUpdate stId data) data
          let event : StreamEvent :=
            { sequence_number := stTop.sequence_number, data := data, timestamp := clk }
          ({ t1 with stream_events := t1.stream_events ++ [event] },
           { stTop with sequence_number := stTop.sequence_number + 1 }, clk + 1, false)

/-- The `choices[0].delta` processing of the OpenAI line loop
    (src/backend/providers/openai.py lines 119-129): as OpenRouter's, but the
    reasoning fragment is appended directly (no `thoughts` fallback, no
    truthiness check). -/
def oaChoicesUpdate (st : ProvState) (data : JVal) : ProvState :=
  match jlookup data "choices" with
  | some c =>
      if jtruthy c then
        match jindex c 0 with
        | some choice =>
            match jlookup choice "delta" with
            | some delta =>
                let stC := match jlookup delta "content" with
                  | some (JVal.jstr s) =>
                      { st with content_buffer := st.content_buffer ++ [s] }
                  | _ => st
                match jlookup delta "reasoning" with
                | some JVal.jnull => stC
                | some (JVal.jstr s) =>
                    { stC with reasoning_buffer := stC.reasoning_buffer ++ [s] }
                | some _ => stC
                | none => stC
            | none => st
        | none => st
      else st
  | none => st

/-- One iteration of `OpenAIProvider.create_completion`'s line loop
    (src/backend/providers/openai.py lines 99-144): as OpenRouter's, minus
    the `thoughts` and top-level reasoning probes. -/
def openAIStep (t : BackgroundTask) (st : ProvState) (clk : Nat) (l : SSELine) :
    BackgroundTask × ProvState × Nat × Bool :=
  let line := pyStrip l.content
  if line = "" ∨ ¬ pyStartsWith line "data: " then (t, st, clk, false)
  else
    let data_str := line.drop 6
    if data_str = "[DONE]" then (t, st, clk, true)
    else
      match l.parsed with
      | none => (t, st, clk, false)
      | some data =>
          let t1 := (orCaptureId t st data).1
          let stCh := oaChoicesUpdate (orCaptureId t st data).2 data
          let event : StreamEvent :=
            { sequence_number := stCh.sequence_number, data := data, timestamp := clk }
          ({ t1 with stream_events := t1.stream_events ++ [event] },
           { stCh with sequence_number := stCh.sequence_number + 1 }, clk + 1, false)

/-- The Anthropic event-type dispatch (src/backend/providers/anthropic.py
    lines 180-191): `message_start` captures a truthy generation id;
    `content_block_delta` buffers a truthy text fragment. -/
def anDispatch (t : BackgroundTask) (st : ProvState) (data : JVal) :
    BackgroundTask × ProvState :=
  match jlookup data "type" with
  | some (JVal.jstr "message_start") =>
      let gid := (jlookup data "message").bind (fun m => jlookup m "id")
      let stA := { st with generation_id := gid }
      match gid with
      | some v =>
          if jtruthy v then
            ({ t with openrouter_generation_id := some v }, stA)
          else (t, stA)
      | none => (t, stA)
  | some (JVal.jstr "content_block_delta") =>
      match (jlookup data "delta").bind (fun d => jlookup d "text") with
      | some (JVal.jstr s) =>
          if s ≠ "" then
            (t, { st with content_buffer := st.content_buffer ++ [s] })
          else (t, st)
      | _ => (t, st)
  | _ => (t, st)

/-- One iteration of `AnthropicProvider.create_completion`'s line loop
    (src/backend/providers/anthropic.py lines 167-206): dispatch on the
    Anthropic event `type`, then event append. -/
def anthropicStep (t : BackgroundTask) (st : ProvState) (clk : Nat) (l : SSELine) :
    BackgroundTask × ProvState × Nat × Bool :=
  let line := pyStrip l.content
  if line = "" ∨ ¬ pyStartsWith line "data: " then (t, st, clk, false)
  else
    let data_str := line.drop 6
    if data_str = "[DONE]" then (t, st, clk, true)
    else
      match l.parsed with
      | none => (t, st, clk, false)
      | some data =>
          let t1 := (anDispatch t st data).1
          let stA := (anDispatch t st data).2
          let event : StreamEvent :=
            { sequence_number := stA.sequence_number, data := data, timestamp := clk }
          ({ t1 with stream_events := t1.stream_events ++ [event] },
           { stA with sequence_number := stA.sequence_number + 1 }, clk + 1, false)

/-- The interleaved environment of a provider's line loop: an external
    `cancel_response` on the drained task lands right before iteration `i`
    (`cancelAt = some i`), otherwise the task is untouched. -/
def cancelInject (cancelAt : Option Nat) (i clk : Nat) (t : BackgroundTask) :
    BackgroundTask :=
  if cancelAt = some i then cancelUpdate clk t else t

/-- The OpenRouter line loop with its per-line cancellation check
    (`if task.status == TaskStatus.CANCELLED: break`). -/
def openRouterLoop (cancelAt : Option Nat) (i : Nat) (t : BackgroundTask)
    (st : ProvState) (clk : Nat) :
    List SSELine → BackgroundTask × ProvState × Nat
  | [] => (t, st, clk)
  | l :: ls =>
      if (cancelInject cancelAt i clk t).status = TaskStatus.cancelled then
        (cancelInject cancelAt i clk t, st, clk)
      else
        match openRouterStep (cancelInject cancelAt i clk t) st clk l with
        | (t1, st1, clk1, stop) =>
            if stop then (t1, st1, clk1)
            else openRouterLoop cancelAt (i + 1) t1 st1 clk1 ls

/-- The Anthropic line loop, same shape as the OpenRouter one. -/
def anthropicLoop (cancelAt : Option Nat) (i : Nat) (t : BackgroundTask)
    (st : ProvState) (clk : Nat) :
    List SSELine → BackgroundTask × ProvState × Nat
  | [] => (t, st, clk)
  | l :: ls =>
      if (cancelInject cancelAt i clk t).status = TaskStatus.cancelled then
        (cancelInject cancelAt i clk t, st, clk)
      else
        match anthropicStep (cancelInject cancelAt i clk t) st clk l with
        | (t1, st1, clk1, stop) =>
            if stop then (t1, st1, clk1)
            else anthropicLoop cancelAt (i + 1) t1 st1 clk1 ls

/-- The code after the OpenRouter line loop (src/backend/providers/openrouter.py
    lines 157-182): join the buffers into `output_text`/`reasoning_summary`
    (the latter only when non-empty) and build the structured `output`.
    It runs even when the loop stopped on cancellation, capturing partial
    output. The uuid of the message id is the `msgId` parameter. -/
def openRouterFinalize (msgId : String) (t : BackgroundTask) (st : ProvState) :
    BackgroundTask :=
  let outText := String.join st.content_buffer
  let t1 := { t with output_text := some outText }
  let t2 :=
    if st.reasoning_buffer.isEmpty then t1
    else { t1 with reasoning_summary := some (String.join st.reasoning_buffer) }
  { t2 with output := some (JVal.jarr [JVal.jobj
      [("id", JVal.jstr ("msg_" ++ msgId)),
       ("type", JVal.jstr "message"),
       ("status", JVal.jstr "completed"),
       ("content", JVal.jarr [JVal.jobj
         [("type", JVal.jstr "output_text"),
          ("text", JVal.jstr outText)]]),
       ("role", JVal.jstr "assistant")]]) }

/-- `OpenRouterProvider.create_completion` drained to the end: the line loop
    followed by the finalization. -/
def openRouterRun (msgId : String) (cancelAt : Option Nat) (t : BackgroundTask)
    (clk : Nat) (lines : List SSELine) : BackgroundTask × Nat :=
  match openRouterLoop cancelAt 0 t provInit clk lines with
  | (t1, st1, clk1) => (openRouterFinalize msgId t1 st1, clk1)

/-- `BackgroundTaskManager._execute_task` (src/background_task_manager.py
    lines 114-198) on the happy control path: mark in-progress, drain the
    provider, poll generation stats when a truthy generation id was captured
    (`statsOracle` stands for the network reply; an empty dict is falsy and
    skipped), then unconditionally mark completed; a raise inside usage
    extraction is caught and recorded as failed. -/
def execute_task (t : BackgroundTask) (lines : List SSELine) (cancelAt : Option Nat)
    (statsOracle : JVal → Option (List (String × JVal))) (msgId : String) (clk : Nat) :
    BackgroundTask :=
  let t1 := { t with status := TaskStatus.inProgress, started_at := some clk }
  match openRouterRun msgId cancelAt t1 (clk + 1) lines with
  | (t2, clk2) =>
      let statsRes : Option (List (String × JVal)) :=
        match t2.openrouter_generation_id with
        | some gid => if jtruthy gid then statsOracle gid else none
        | none => none
      match statsRes with
      | some stats =>
          if stats.isEmpty then
            { t2 with status := TaskStatus.completed, completed_at := some (clk2 + 1) }
          else
            match extract_usage_from_stats stats with
            | Except.ok u =>
                { t2 with
                  usage := some u
                  status := TaskStatus.completed
                  completed_at := some (clk2 + 1) }
            | Except.error e =>
                { t2 with
                  status := TaskStatus.failed
                  error := some e
                  completed_at := some (clk2 + 1) }
      | none => { t2 with status := TaskStatus.completed, completed_at := some (clk2 + 1) }

/-- The `except asyncio.CancelledError` handler of `_execute_task`
    (src/background_task_manager.py lines 191-193, identical in
    src/backend/enhanced_task_manager.py lines 95-97): when the Executor
    itself is cancelled while awaiting the provider, the task's status is set
    to cancelled and the error re-raised; no other field is touched. -/
def execute_task_on_executor_cancel (t : BackgroundTask) : BackgroundTask :=
  { t with status := TaskStatus.cancelled }

/-- `EnhancedBackgroundTaskManager._execute_task`
    (src/backend/enhanced_task_manager.py lines 47-102): mark in-progress and
    stamp `started_at`, resolve the provider through the registry — raising
    `No provider available for model: ...` when resolution fails, caught into
    a failed status — else drain the resolved provider (`providerRun` stands
    for its `create_completion`), poll stats, and mark completed. The second
    component records the successive values assigned to `status`. -/
def execute_task_enhanced (reg : ProviderRegistry)
    (providerRun : ProviderType → BackgroundTask → Nat → BackgroundTask × Nat)
    (statsOracle : ProviderType → JVal → Option (List (String × JVal)))
    (t : BackgroundTask) (clk : Nat) : BackgroundTask × List TaskStatus :=
  let t1 := { t with status := TaskStatus.inProgress, started_at := some clk }
  match get_provider_for_model reg t.model with
  | none =>
      let t2 := { t1 with
                  status := TaskStatus.failed
                  error := some ("No provider available for model: " ++ t.model)
                  completed_at := some (clk + 1) }
      (t2, [TaskStatus.inProgress, TaskStatus.failed])
  | some p =>
      match providerRun p t1 (clk + 1) with
      | (t2, clk2) =>
          let statsRes : Option (List (String × JVal)) :=
            match t2.openrouter_generation_id with
            | some gid => if jtruthy gid then statsOracle p gid else none
            | none => none
          match statsRes with
          | some stats =>
              if stats.isEmpty then
                ({ t2 with status := TaskStatus.completed, completed_at := some (clk2 + 1) },
                 [TaskStatus.inProgress, TaskStatus.completed])
              else
                match extract_usage_from_stats stats with
                | Except.ok u =>
                    ({ t2 with
                       usage := some u
                       status := TaskStatus.completed
                       completed_at := some (clk2 + 1) },
                     [TaskStatus.inProgress, TaskStatus.completed])
                | Except.error e =>
                    ({ t2 with
                       status := TaskStatus.failed
                       error := some e
                       completed_at := some (clk2 + 1) },
                     [TaskStatus.inProgress, TaskStatus.failed])
          | none =>
              ({ t2 with status := TaskStatus.completed, completed_at := some (clk2 + 1) },
               [TaskStatus.inProgress, TaskStatus.completed])

/-- The gap-free property of an event log: the event found at index `j`
    carries sequence number `j`. -/
def seqOk (es : List StreamEvent) : Prop :=
  ∀ (j : Nat) (e : StreamEvent), es[j]? = some e → e.sequence_number = j

/-- The log observed by the last polling iteration of a schedule, seeded
    with the log at the baseline. -/
def lastLogD (d : List StreamEvent) : List PollIter → List StreamEvent
  | [] => d
  | it :: its => lastLogD it.log its

/-- A quiescent-at-yields, monotone, non-terminal polling schedule: each
    iteration's log extends the previous one, the length re-read after the
    yields saw no concurrent append, and the status still read non-terminal. -/
def quiet (prev : List StreamEvent) : List PollIter → Prop
  | [] => True
  | it :: its =>
      (∃ s, it.log = prev ++ s) ∧ it.lateLen = it.log.length ∧
      (it.status = TaskStatus.queued ∨ it.status = TaskStatus.inProgress) ∧
      quiet it.log its

/-- A typical streaming delta payload carrying one content fragment. -/
def chunkPayload (txt : String) : JVal :=
  JVal.jobj [("choices", JVal.jarr
    [JVal.jobj [("delta", JVal.jobj [("content", JVal.jstr txt)])]])]

/-- Three well-formed stream lines carrying content fragments. -/
def linesDemo : List SSELine :=
  [{ content := "data: c0", parsed := some (chunkPayload "Hel") },
   { content := "data: c1", parsed := some (chunkPayload "lo") },
   { content := "data: c2", parsed := some (chunkPayload "!") }]

/-- A line that passes the framing checks but fails JSON parsing. -/
def malformedLine : SSELine := { content := "data: notjson", parsed := none }

/-- A freshly created task, as `create_response` builds it. -/
def taskDemo : BackgroundTask :=
  { id := "resp_demo", status := TaskStatus.queued, model := "demo/echo", input := [] }

/-- A registry initialized with no API keys configured. -/
def emptyRegistry : ProviderRegistry :=
  { providers := [], modelMap := build_model_map [] }

/-- A `native_tokens_details` dict carrying both a direct `reasoning_tokens`
    and a nested `completion_tokens_details` one. -/
def nativeCx : List (String × JVal) :=
  [("reasoning_tokens", JVal.jnum 5),
   ("completion_tokens_details", JVal.jobj [("reasoning_tokens", JVal.jnum 7)])]

/-- A stats payload whose `native_tokens_details` carries both a direct
    `reasoning_tokens` and a nested `completion_tokens_details` one, plus a
    top-level `tokens_prompt`. -/
def statsCx : List (String × JVal) :=
  [("tokens_prompt", JVal.jnum 10),
   ("native_tokens_details", JVal.jobj nativeCx)]

/-- The worked stats payload of the specification: only
    `native_tokens_details.completion_tokens_details.reasoning_tokens = 37`. -/
def stats37 : List (String × JVal) :=
  [("native_tokens_details", JVal.jobj
     [("completion_tokens_details", JVal.jobj [("reasoning_tokens", JVal.jnum 37)])])]

/-- A stats payload with only top-level token fields. -/
def statsPlain : List (String × JVal) := [("tokens_prompt", JVal.jnum 3)]

/-- A stream event with a given sequence number. -/
def ev (n : Nat) : StreamEvent :=
  { sequence_number := n, data := JVal.jnull, timestamp := n }

/-- An in-progress task whose log holds one event at stream entry. -/
def taskStreamDemo : BackgroundTask :=
  { id := "resp_s", status := TaskStatus.inProgress, model := "m", input := []
    stream_events := [ev 0] }

/-- A store holding only `taskStreamDemo`. -/
def storeStreamDemo : List (String × BackgroundTask) := [("resp_s", taskStreamDemo)]

/-- A schedule in which `ev 1` was appended while the historical events were
    being yielded (the length read at the poll baseline is already 2), one
    further non-terminal poll sees the same log, and the task then completes. -/
def itersCx : List PollIter :=
  [{ status := TaskStatus.inProgress, log := [ev 0, ev 1], lateLen := 2 },
   { status := TaskStatus.completed, log := [ev 0, ev 1], lateLen := 2 }]

/-- A quiescent tail schedule: one non-terminal poll that saw `ev 2` appended. -/
def itersQuiet : List PollIter :=
  [{ status := TaskStatus.inProgress, log := [ev 0, ev 1, ev 2], lateLen := 3 }]

/-- An in-progress task with two events at stream entry. -/
def taskStreamQuiet : BackgroundTask :=
  { id := "resp_q", status := TaskStatus.inProgress, model := "m", input := []
    stream_events := [ev 0, ev 1] }

/-- A store holding only `taskStreamQuiet`. -/
def storeStreamQuiet : List (String × BackgroundTask) := [("resp_q", taskStreamQuiet)]

/-- An in-progress task as the Executor holds it while awaiting a provider. -/
def taskInFlight : BackgroundTask :=
  { id := "resp_flight", status := TaskStatus.inProgress, model := "openai/gpt-4o"
    input := [], started_at := some 1 }

/-- A completed task record. -/
def taskDone : BackgroundTask :=
  { id := "resp_done", status := TaskStatus.completed, model := "m", input := []
    started_at := some 1, completed_at := some 2, output_text := some "hi" }

/-- Supporting lemma: consecutive assignments of the same key collapse to
    the last one. -/
theorem aset_aset {α : Type} (l : List (String × α)) (k : String) (v1 v2 : α) :
    aset (aset l k v1) k v2 = aset l k v2 := by
  induction l with
  | nil => simp [aset]
  | cons p rest ih =>
      cases p with
      | mk k' v' =>
          by_cases h : k' == k
          · simp [aset, h]
          · simp [aset, h, ih]

/-- Supporting lemma: `cancel_response`'s mutation never touches the log. -/
theorem cancelUpdate_stream_events (clk : Nat) (t : BackgroundTask) :
    (cancelUpdate clk t).stream_events = t.stream_events := by
  unfold cancelUpdate; split <;> rfl

/-- Supporting lemma: an injected external cancel never touches the log. -/
theorem cancelInject_stream_events (cancelAt : Option Nat) (i clk : Nat) (t : BackgroundTask) :
    (cancelInject cancelAt i clk t).stream_events = t.stream_events := by
  unfold cancelInject; split
  · exact cancelUpdate_stream_events clk t
  · rfl

/-- Supporting lemma: generation-id capture leaves the log unchanged. -/
theorem orCaptureId_fst_stream_events (t : BackgroundTask) (st : ProvState) (data : JVal) :
    (orCaptureId t st data).1.stream_events = t.stream_events := by
  unfold orCaptureId
  cases jlookup data "id" with
  | none => rfl
  | some v => dsimp only; split <;> rfl

/-- Supporting lemma: generation-id capture leaves the counter unchanged. -/
theorem orCaptureId_snd_seq (t : BackgroundTask) (st : ProvState) (data : JVal) :
    (orCaptureId t st data).2.sequence_number = st.sequence_number := by
  unfold orCaptureId
  cases jlookup data "id" with
  | none => rfl
  | some v => dsimp only; split <;> rfl

/-- Supporting lemma: content/reasoning buffering leaves the counter unchanged. -/
theorem orChoicesUpdate_seq (st : ProvState) (data : JVal) :
    (orChoicesUpdate st data).sequence_number = st.sequence_number := by
  simp only [orChoicesUpdate]
  repeat' split
  all_goals rfl

/-- Supporting lemma: the top-level reasoning probe leaves the counter unchanged. -/
theorem orTopReasoningUpdate_seq (st : ProvState) (data : JVal) :
    (orTopReasoningUpdate st data).sequence_number = st.sequence_number := by
  simp only [orTopReasoningUpdate]
  repeat' split
  all_goals rfl

/-- Supporting lemma: the Anthropic dispatch leaves the log unchanged. -/
theorem anDispatch_fst_stream_events (t : BackgroundTask) (st : ProvState) (data : JVal) :
    (anDispatch t st data).1.stream_events = t.stream_events := by
  simp only [anDispatch]
  repeat' split
  all_goals rfl

/-- Supporting lemma: the Anthropic dispatch leaves the counter unchanged. -/
theorem anDispatch_snd_seq (t : BackgroundTask) (st : ProvState) (data : JVal) :
    (anDispatch t st data).2.sequence_number = st.sequence_number := by
  simp only [anDispatch]
  repeat' split
  all_goals rfl

/-- Supporting lemma: the empty log is gap-free. -/
theorem seqOk_nil : seqOk [] := by
  intro j e h
  simp at h

/-- Supporting lemma: appending the event numbered with the current length
    keeps the log gap-free. -/
theorem seqOk_append (es : List StreamEvent) (d : JVal) (ts : Nat) (h : seqOk es) :
    seqOk (es ++ [{ sequence_number := es.length, data := d, timestamp := ts }]) := by
  intro j e hj
  by_cases hlt : j < es.length
  · rw [List.getElem?_append_left hlt] at hj
    exact h j e hj
  · have hlen : j < es.length + 1 := by
      have := (List.getElem?_eq_some.mp hj).1
      simpa using this
    have hje : j = es.length := by omega
    subst hje
    rw [List.getElem?_append_right (Nat.le_refl _)] at hj
    simp at hj
    rw [← hj]

/-- Supporting lemma: one OpenRouter line either leaves the log and counter
    unchanged, or appends exactly one event numbered with the counter and
    bumps the counter. -/
theorem orStep_inv (t : BackgroundTask) (st : ProvState) (clk : Nat) (l : SSELine) :
    ((openRouterStep t st clk l).1.stream_events = t.stream_events ∧
     (openRouterStep t st clk l).2.1.sequence_number = st.sequence_number) ∨
    (∃ d, (openRouterStep t st clk l).1.stream_events
        = t.stream_events ++ [{ sequence_number := st.sequence_number, data := d, timestamp := clk }] ∧
     (openRouterStep t st clk l).2.1.sequence_number = st.sequence_number + 1) := by
  by_cases hA1 : pyStrip l.content = ""
  · left; constructor <;> simp [openRouterStep, hA1]
  · by_cases hA2 : pyStartsWith (pyStrip l.content) "data: " = true
    · by_cases hB : (pyStrip l.content).drop 6 = "[DONE]"
      · left; constructor <;> simp [openRouterStep, hA1, hA2, hB]
      · cases hp : l.parsed with
        | none => left; constructor <;> simp [openRouterStep, hA1, hA2, hB, hp]
        | some data =>
            right
            refine ⟨data, ?_, ?_⟩ <;>
              simp [openRouterStep, hA1, hA2, hB, hp, orCaptureId_fst_stream_events,
                    orTopReasoningUpdate_seq, orChoicesUpdate_seq, orCaptureId_snd_seq]
    · left; constructor <;> simp [openRouterStep, hA1, hA2]

/-- Supporting lemma: the same dichotomy for one Anthropic line. -/
theorem anStep_inv (t : BackgroundTask) (st : ProvState) (clk : Nat) (l : SSELine) :
    ((anthropicStep t st clk l).1.stream_events = t.stream_events ∧
     (anthropicStep t st clk l).2.1.sequence_number = st.sequence_number) ∨
    (∃ d, (anthropicStep t st clk l).1.stream_events
        = t.stream_events ++ [{ sequence_number := st.sequence_number, data := d, timestamp := clk }] ∧
     (anthropicStep t st clk l).2.1.sequence_number = st.sequence_number + 1) := by
  by_cases hA1 : pyStrip l.content = ""
  · left; constructor <;> simp [anthropicStep, hA1]
  · by_cases hA2 : pyStartsWith (pyStrip l.content) "data: " = true
    · by_cases hB : (pyStrip l.content).drop 6 = "[DONE]"
      · left; constructor <;> simp [anthropicStep, hA1, hA2, hB]
      · cases hp : l.parsed with
        | none => left; constructor <;> simp [anthropicStep, hA1, hA2, hB, hp]
        | some data =>
            right
            refine ⟨data, ?_, ?_⟩ <;>
              simp [anthropicStep, hA1, hA2, hB, hp, anDispatch_fst_stream_events,
                    anDispatch_snd_seq]
    · left; constructor <;> simp [anthropicStep, hA1, hA2]

/-- Supporting lemma: the OpenRouter line loop only appends, and keeps the
    log gap-free, from any state where the counter equals the log length. -/
theorem orLoop_inv : ∀ (lines : List SSELine) (cancelAt : Option Nat) (i : Nat)
    (t : BackgroundTask) (st : ProvState) (clk : Nat),
    st.sequence_number = t.stream_events.length → seqOk t.stream_events →
    (∃ s, (openRouterLoop cancelAt i t st clk lines).1.stream_events = t.stream_events ++ s) ∧
    seqOk (openRouterLoop cancelAt i t st clk lines).1.stream_events := by
  intro lines
  induction lines with
  | nil =>
      intro cancelAt i t st clk h1 h2
      exact ⟨⟨[], by simp [openRouterLoop]⟩, by simpa [openRouterLoop] using h2⟩
  | cons l ls ih =>
      intro cancelAt i t st clk h1 h2
      have ht0 := cancelInject_stream_events cancelAt i clk t
      unfold openRouterLoop
      split
      · exact ⟨⟨[], by simp [ht0]⟩, by rw [ht0]; exact h2⟩
      · have hseq0 : st.sequence_number = (cancelInject cancelAt i clk t).stream_events.length := by
          rw [ht0]; exact h1
        have hok0 : seqOk (cancelInject cancelAt i clk t).stream_events := by
          rw [ht0]; exact h2
        have hst := orStep_inv (cancelInject cancelAt i clk t) st clk l
        rcases hstep : openRouterStep (cancelInject cancelAt i clk t) st clk l
          with ⟨t1, st1, clk1, stop⟩
        rw [hstep] at hst
        dsimp only at hst
        have hinv : st1.sequence_number = t1.stream_events.length ∧ seqOk t1.stream_events ∧
            ∃ s, t1.stream_events = t.stream_events ++ s := by
          rcases hst with ⟨he, hs⟩ | ⟨d, he, hs⟩
          · refine ⟨?_, ?_, ⟨[], ?_⟩⟩
            · rw [hs, he]; exact hseq0
            · rw [he]; exact hok0
            · simp [he, ht0]
          · refine ⟨?_, ?_, ?_⟩
            · simp [hs, he, hseq0]
            · have hap := seqOk_append (cancelInject cancelAt i clk t).stream_events d clk hok0
              rw [← hseq0] at hap
              rw [he]
              exact hap
            · exact ⟨[{ sequence_number := st.sequence_number, data := d, timestamp := clk }],
                by rw [he, ht0]⟩
        rcases hinv with ⟨k1, k2, s0, k3⟩
        dsimp only
        by_cases hstop : stop = true
        · rw [if_pos hstop]
          exact ⟨⟨s0, k3⟩, k2⟩
        · rw [if_neg hstop]
          rcases ih cancelAt (i + 1) t1 st1 clk1 k1 k2 with ⟨⟨s2, hs2⟩, hok2⟩
          exact ⟨⟨s0 ++ s2, by rw [hs2, k3, List.append_assoc]⟩, hok2⟩

/-- Supporting lemma: the same invariant for the Anthropic line loop. -/
theorem anLoop_inv : ∀ (lines : List SSELine) (cancelAt : Option Nat) (i : Nat)
    (t : BackgroundTask) (st : ProvState) (clk : Nat),
    st.sequence_number = t.stream_events.length → seqOk t.stream_events →
    (∃ s, (anthropicLoop cancelAt i t st clk lines).1.stream_events = t.stream_events ++ s) ∧
    seqOk (anthropicLoop cancelAt i t st clk lines).1.stream_events := by
  intro lines
  induction lines with
  | nil =>
      intro cancelAt i t st clk h1 h2
      exact ⟨⟨[], by simp [anthropicLoop]⟩, by simpa [anthropicLoop] using h2⟩
  | cons l ls ih =>
      intro cancelAt i t st clk h1 h2
      have ht0 := cancelInject_stream_events cancelAt i clk t
      unfold anthropicLoop
      split
      · exact ⟨⟨[], by simp [ht0]⟩, by rw [ht0]; exact h2⟩
      · have hseq0 : st.sequence_number = (cancelInject cancelAt i clk t).stream_events.length := by
          rw [ht0]; exact h1
        have hok0 : seqOk (cancelInject cancelAt i clk t).stream_events := by
          rw [ht0]; exact h2
        have hst := anStep_inv (cancelInject cancelAt i clk t) st clk l
        rcases hstep : anthropicStep (cancelInject cancelAt i clk t) st clk l
          with ⟨t1, st1, clk1, stop⟩
        rw [hstep] at hst
        dsimp only at hst
        have hinv : st1.sequence_number = t1.stream_events.length ∧ seqOk t1.stream_events ∧
            ∃ s, t1.stream_events = t.stream_events ++ s := by
          rcases hst with ⟨he, hs⟩ | ⟨d, he, hs⟩
          · refine ⟨?_, ?_, ⟨[], ?_⟩⟩
            · rw [hs, he]; exact hseq0
            · rw [he]; exact hok0
            · simp [he, ht0]
          · refine ⟨?_, ?_, ?_⟩
            · simp [hs, he, hseq0]
            · have hap := seqOk_append (cancelInject cancelAt i clk t).stream_events d clk hok0
              rw [← hseq0] at hap
              rw [he]
              exact hap
            · exact ⟨[{ sequence_number := st.sequence_number, data := d, timestamp := clk }],
                by rw [he, ht0]⟩
        rcases hinv with ⟨k1, k2, s0, k3⟩
        dsimp only
        by_cases hstop : stop = true
        · rw [if_pos hstop]
          exact ⟨⟨s0, k3⟩, k2⟩
        · rw [if_neg hstop]
          rcases ih cancelAt (i + 1) t1 st1 clk1 k1 k2 with ⟨⟨s2, hs2⟩, hok2⟩
          exact ⟨⟨s0 ++ s2, by rw [hs2, k3, List.append_assoc]⟩, hok2⟩

/-- Supporting lemma: finalization never touches the log. -/
theorem openRouterFinalize_stream_events (msgId : String) (t : BackgroundTask) (st : ProvState) :
    (openRouterFinalize msgId t st).stream_events = t.stream_events := by
  unfold openRouterFinalize
  split <;> rfl

/-- Supporting lemma: the Executor's post-drain bookkeeping never touches the
    log, so the executed task's log is the loop's log. -/
theorem execute_task_stream_events (t : BackgroundTask) (lines : List SSELine)
    (cancelAt : Option Nat) (so : JVal → Option (List (String × JVal))) (msgId : String)
    (clk : Nat) :
    (execute_task t lines cancelAt so msgId clk).stream_events
      = (openRouterLoop cancelAt 0
          { t with status := TaskStatus.inProgress, started_at := some clk }
          provInit (clk + 1) lines).1.stream_events := by
  unfold execute_task openRouterRun
  rcases hloop : openRouterLoop cancelAt 0
      { t with status := TaskStatus.inProgress, started_at := some clk }
      provInit (clk + 1) lines with ⟨t1, st1, clk1⟩
  dsimp only
  rw [hloop]
  dsimp only
  repeat' split
  all_goals simp [openRouterFinalize_stream_events, hloop]

/-- Supporting lemma: with no configured provider, a restricted table hit is
    impossible. -/
theorem lookupConfigured_noProviders (reg : ProviderRegistry) (h : reg.providers = [])
    (m : String) : lookupConfigured reg m = none := by
  unfold lookupConfigured
  cases alookup reg.modelMap m with
  | none => rfl
  | some pt => rw [h]; simp

/-- Supporting lemma: with no configured provider, namespaced retries fail. -/
theorem tryNamespaces_noProviders (reg : ProviderRegistry) (h : reg.providers = [])
    (m : String) : ∀ ps, tryNamespaces reg m ps = none := by
  intro ps
  induction ps with
  | nil => rfl
  | cons p rest ih => unfold tryNamespaces; rw [lookupConfigured_noProviders reg h]; exact ih

/-- Supporting lemma: with no configured provider, resolution fails for every
    model name. -/
theorem resolve_noProviders (reg : ProviderRegistry) (h : reg.providers = [])
    (m : String) : get_provider_for_model reg m = none := by
  unfold get_provider_for_model
  rw [lookupConfigured_noProviders reg h, tryNamespaces_noProviders reg h, h]
  simp

/-- Supporting lemma: the source's configured-hit check equals the restricted
    table of the specification. -/
theorem lookupConfigured_eq_restricted (reg : ProviderRegistry) (m : String) :
    lookupConfigured reg m = restrictedLookup reg m := by
  unfold lookupConfigured restrictedLookup
  cases alookup reg.modelMap m <;> simp [Option.bind]

/-- Supporting lemma: the namespace retry loop is the first restricted hit. -/
theorem tryNamespaces_eq_findSome (reg : ProviderRegistry) (m : String) :
    ∀ ps, tryNamespaces reg m ps = ps.findSome? (fun p => restrictedLookup reg (p ++ m)) := by
  intro ps
  induction ps with
  | nil => rfl
  | cons p rest ih =>
      unfold tryNamespaces
      rw [lookupConfigured_eq_restricted, List.findSome?_cons]
      cases restrictedLookup reg (p ++ m) <;> simp [ih]

/-- Supporting lemma: under a quiescent monotone schedule, the last polled
    log extends the baseline log. -/
theorem lastLogD_extends : ∀ (iters : List PollIter) (prev : List StreamEvent),
    quiet prev iters → ∃ s, lastLogD prev iters = prev ++ s := by
  intro iters
  induction iters with
  | nil => intro prev _; exact ⟨[], by simp [lastLogD]⟩
  | cons it its ih =>
      intro prev hq
      rcases hq with ⟨⟨s1, hlog⟩, _, _, q2⟩
      rcases ih it.log q2 with ⟨s2, h2⟩
      refine ⟨s1 ++ s2, ?_⟩
      have hstep : lastLogD prev (it :: its) = lastLogD it.log its := rfl
      rw [hstep, h2, hlog, List.append_assoc]

/-- Supporting lemma: under a quiescent monotone schedule, the tail loop
    yields exactly the events appended past the baseline. -/
theorem streamPoll_quiet : ∀ (iters : List PollIter) (prev : List StreamEvent),
    quiet prev iters →
    streamPoll prev.length iters = (lastLogD prev iters).drop prev.length := by
  intro iters
  induction iters with
  | nil => intro prev _; simp [streamPoll, lastLogD, List.drop_length]
  | cons it its ih =>
      intro prev hq
      rcases hq with ⟨⟨s1, hlog⟩, hlate, hstat, q2⟩
      unfold streamPoll
      rw [if_pos hstat]
      rcases s1 with _ | ⟨x, xs⟩
      · have hlogp : it.log = prev := by simpa using hlog
        have hno : ¬ it.log.length > prev.length := by rw [hlogp]; omega
        rw [if_neg hno]
        have hq2 : quiet prev its := by rwa [hlogp] at q2
        rw [ih prev hq2]
        simp [lastLogD, hlogp]
      · have hgt : it.log.length > prev.length := by
          rw [hlog, List.length_append, List.length_cons]; omega
        rw [if_pos hgt]
        have ihh := ih it.log q2
        rw [hlate, ihh]
        rcases lastLogD_extends its it.log q2 with ⟨s2, h2⟩
        show it.log.drop prev.length ++ (lastLogD it.log its).drop it.log.length
          = (lastLogD it.log its).drop prev.length
        have e1 : (prev ++ x :: xs).drop prev.length = x :: xs := List.drop_left prev (x :: xs)
        have e2 : ((prev ++ x :: xs) ++ s2).drop (prev ++ x :: xs).length = s2 :=
          List.drop_left _ s2
        have e3 : ((prev ++ x :: xs) ++ s2).drop prev.length
            = (prev ++ x :: xs).drop prev.length ++ s2 :=
          List.drop_append_of_le_length (by simp)
        rw [h2, hlog, e1, e2, e3, e1]

/-- Claim C1: once an external cancel has set an in-progress task to
    cancelled and the provider has observed the flag and stopped draining,
    the Executor's completion path must not set the task's status back to
    completed — whichever of Executor-completion or cancel lands second must
    not overwrite the other's terminal effect. The code violates this: with
    a cancel landing before line 1 of a three-line stream, the drain stops
    with status cancelled (and one stored event), yet `_execute_task` then
    unconditionally sets status completed; without the cancel all three
    events arrive. -/
theorem c1_executor_completion_overwrites_cancel :
    (openRouterRun "u1" (some 1)
        { taskDemo with status := TaskStatus.inProgress, started_at := some 0 } 1 linesDemo).1.status
      = TaskStatus.cancelled ∧
    (execute_task taskDemo linesDemo (some 1) (fun _ => none) "u1" 0).status
      = TaskStatus.completed ∧
    (execute_task taskDemo linesDemo (some 1) (fun _ => none) "u1" 0).stream_events.length = 1 ∧
    (execute_task taskDemo linesDemo none (fun _ => none) "u1" 0).stream_events.length = 3 :=
  ⟨by decide, by decide, by decide, by decide⟩

/-- Claim C2: a task record observable by readers has a terminal status if
    and only if `completed_at` is set, on every execution path including
    cancellation of the Executor itself while a provider call is in flight.
    The code violates this: the `except asyncio.CancelledError` handler sets
    the terminal status cancelled but never sets `completed_at`, leaving an
    in-flight task terminal with `completed_at` absent. -/
theorem c2_executor_cancel_terminal_without_completed_at :
    ((execute_task_on_executor_cancel taskInFlight).status.isTerminal = true ∧
     (execute_task_on_executor_cancel taskInFlight).completed_at = none) ∧
    ∀ t : BackgroundTask,
      (execute_task_on_executor_cancel t).status = TaskStatus.cancelled ∧
      (execute_task_on_executor_cancel t).completed_at = t.completed_at :=
  ⟨⟨rfl, rfl⟩, fun _ => ⟨rfl, rfl⟩⟩

/-- Claim C3 counterexample: with no provider configured, the registry cannot
    resolve `demo/echo`, yet executing the task assigns status inProgress
    (and records `started_at`) before provider resolution, so the claim that
    the task never reaches InProgress is false on the code; the task does end
    Failed. -/
theorem c3_counterexample :
    get_provider_for_model emptyRegistry taskDemo.model = none ∧
    TaskStatus.inProgress ∈
      (execute_task_enhanced emptyRegistry (fun _ t c => (t, c)) (fun _ _ => none) taskDemo 0).2 ∧
    (execute_task_enhanced emptyRegistry (fun _ t c => (t, c)) (fun _ _ => none) taskDemo 0).1.status
      = TaskStatus.failed ∧
    (execute_task_enhanced emptyRegistry (fun _ t c => (t, c)) (fun _ _ => none) taskDemo 0).1.started_at
      = some 0 := by
  have h := resolve_noProviders emptyRegistry rfl taskDemo.model
  refine ⟨h, ?_, ?_, ?_⟩ <;> simp [execute_task_enhanced, h]

/-- Claim C3 (amended): when the registry cannot resolve the task's model,
    the Executor first assigns InProgress and records `started_at`, then —
    with no provider call made and no event appended — the raised failure is
    caught and the task ends Failed with the `No provider available` error
    recorded and `completed_at` stamped; the status assignments are exactly
    InProgress then Failed. -/
theorem c3_amended_failure_path (reg : ProviderRegistry)
    (pr : ProviderType → BackgroundTask → Nat → BackgroundTask × Nat)
    (so : ProviderType → JVal → Option (List (String × JVal)))
    (t : BackgroundTask) (clk : Nat)
    (h : get_provider_for_model reg t.model = none) :
    (execute_task_enhanced reg pr so t clk).1.status = TaskStatus.failed ∧
    (execute_task_enhanced reg pr so t clk).1.error
      = some ("No provider available for model: " ++ t.model) ∧
    (execute_task_enhanced reg pr so t clk).1.started_at = some clk ∧
    (execute_task_enhanced reg pr so t clk).1.completed_at = some (clk + 1) ∧
    (execute_task_enhanced reg pr so t clk).2 = [TaskStatus.inProgress, TaskStatus.failed] ∧
    (execute_task_enhanced reg pr so t clk).1.stream_events = t.stream_events ∧
    (execute_task_enhanced reg pr so t clk).1.output_text = t.output_text ∧
    (execute_task_enhanced reg pr so t clk).1.usage = t.usage := by
  simp [execute_task_enhanced, h]

/-- Claim C3 witness: the amended failure path evaluated on the no-provider
    registry and the `demo/echo` task. -/
theorem c3_witness :
    (execute_task_enhanced emptyRegistry (fun _ t c => (t, c)) (fun _ _ => none) taskDemo 0).1.status
      = TaskStatus.failed ∧
    (execute_task_enhanced emptyRegistry (fun _ t c => (t, c)) (fun _ _ => none) taskDemo 0).1.error
      = some ("No provider available for model: " ++ taskDemo.model) ∧
    (execute_task_enhanced emptyRegistry (fun _ t c => (t, c)) (fun _ _ => none) taskDemo 0).2
      = [TaskStatus.inProgress, TaskStatus.failed] :=
  ⟨(c3_amended_failure_path emptyRegistry _ _ taskDemo 0
      (resolve_noProviders emptyRegistry rfl _)).1,
   (c3_amended_failure_path emptyRegistry _ _ taskDemo 0
      (resolve_noProviders emptyRegistry rfl _)).2.1,
   (c3_amended_failure_path emptyRegistry _ _ taskDemo 0
      (resolve_noProviders emptyRegistry rfl _)).2.2.2.2.1⟩

/-- Claim C4 counterexample: on a payload with a top-level `tokens_prompt`
    and a `native_tokens_details` carrying both a direct reasoning count (5)
    and a nested `completion_tokens_details` one (7), the code yields
    promptTokens 10 and reasoningTokens 5, while the claimed procedure
    (all-zero default seed, last match wins) yields promptTokens 0 and
    reasoningTokens 7 — so the extraction does not follow the claimed
    procedure. -/
theorem c4_counterexample :
    extract_usage_from_stats statsCx = Except.ok
      [("prompt_tokens", JVal.jnum 10), ("completion_tokens", JVal.jnum 0),
       ("total_tokens", JVal.jnum 0), ("reasoning_tokens", JVal.jnum 5)] ∧
    extract_usage_claimed statsCx =
      [("prompt_tokens", JVal.jnum 0), ("completion_tokens", JVal.jnum 0),
       ("total_tokens", JVal.jnum 0), ("reasoning_tokens", JVal.jnum 7)] ∧
    extract_usage_from_stats statsCx ≠ Except.ok (extract_usage_claimed statsCx) := by
  refine ⟨rfl, rfl, ?_⟩
  intro h
  rw [show extract_usage_from_stats statsCx = Except.ok
      [("prompt_tokens", JVal.jnum 10), ("completion_tokens", JVal.jnum 0),
       ("total_tokens", JVal.jnum 0), ("reasoning_tokens", JVal.jnum 5)] from rfl,
     show extract_usage_claimed statsCx =
      [("prompt_tokens", JVal.jnum 0), ("completion_tokens", JVal.jnum 0),
       ("total_tokens", JVal.jnum 0), ("reasoning_tokens", JVal.jnum 7)] from rfl] at h
  simp at h

/-- Supporting lemma: on every stats payload, the extraction of the source
    equals the amended-claim procedure `extract_usage_amended` — same seed,
    same overlay, same candidate order with the elif exclusion, same raise
    conditions. -/
theorem extract_usage_eq_amended (stats : List (String × JVal)) :
    extract_usage_from_stats stats = extract_usage_amended stats := by
  have hcore : ∀ (base : List (String × JVal)) (c1 : Option JVal),
      (match (match alookup stats "native_tokens_details" with
        | none => Except.ok (applyReasoning base c1)
        | some (JVal.jobj dfs) =>
            match alookup dfs "reasoning_tokens" with
            | some rt => Except.ok (aset (applyReasoning base c1) "reasoning_tokens" rt)
            | none =>
                match alookup dfs "completion_tokens_details" with
                | none => Except.ok (applyReasoning base c1)
                | some (JVal.jobj cfs) =>
                    match alookup cfs "reasoning_tokens" with
                    | some rt => Except.ok (aset (applyReasoning base c1) "reasoning_tokens" rt)
                    | none => Except.ok (applyReasoning base c1)
                | some _ => Except.error "TypeError"
        | some _ => Except.error "TypeError" : Except String (List (String × JVal))) with
      | Except.error e => Except.error e
      | Except.ok usage2 =>
          match alookup stats "reasoning_tokens" with
          | some rt => Except.ok (aset usage2 "reasoning_tokens" rt)
          | none => Except.ok usage2)
      = (match nativeCandidateAmended stats with
        | Except.error e => Except.error e
        | Except.ok cNative =>
            Except.ok (applyReasoning base
              (lastSome [c1, cNative, alookup stats "reasoning_tokens"]))) := by
    intro base c1
    unfold nativeCandidateAmended probeCtdReasoning
    cases hN : alookup stats "native_tokens_details" with
    | none =>
        cases hT : alookup stats "reasoning_tokens" <;> cases c1 <;>
          simp [hN, hT, applyReasoning, lastSome, aset_aset]
    | some n =>
        cases n
        case jobj dfs =>
          cases hR : alookup dfs "reasoning_tokens" with
          | some rt =>
              cases hT : alookup stats "reasoning_tokens" <;> cases c1 <;>
                simp [hN, hR, hT, applyReasoning, lastSome, aset_aset]
          | none =>
              cases hC : alookup dfs "completion_tokens_details" with
              | none =>
                  cases hT : alookup stats "reasoning_tokens" <;> cases c1 <;>
                    simp [hN, hR, hC, hT, applyReasoning, lastSome, aset_aset]
              | some c =>
                  cases c
                  case jobj cfs =>
                    cases hR2 : alookup cfs "reasoning_tokens" with
                    | some rt =>
                        cases hT : alookup stats "reasoning_tokens" <;> cases c1 <;>
                          simp [hN, hR, hC, hR2, hT, applyReasoning, lastSome, aset_aset]
                    | none =>
                        cases hT : alookup stats "reasoning_tokens" <;> cases c1 <;>
                          simp [hN, hR, hC, hR2, hT, applyReasoning, lastSome, aset_aset]
                  all_goals simp_all
        all_goals simp_all
  unfold extract_usage_from_stats extract_usage_amended usageOverlayAmended probeCtdReasoning
  cases hU : alookup stats "usage" with
  | none =>
      have hc := hcore (usageSeed stats) none
      simp only [hU]
      simpa [usageSeed, applyReasoning] using hc
  | some u =>
      cases u
      case jobj ufs =>
        cases hC : alookup ufs "completion_tokens_details" with
        | none =>
            have hc := hcore (aupdate (usageSeed stats) ufs) none
            simp only [hU, hC]
            simpa [usageSeed, applyReasoning] using hc
        | some c =>
            cases c
            case jobj cfs =>
              cases hR : alookup cfs "reasoning_tokens" with
              | some rt =>
                  have hc := hcore (aupdate (usageSeed stats) ufs) (some rt)
                  simp only [hU, hC, hR]
                  simpa [usageSeed, applyReasoning] using hc
              | none =>
                  have hc := hcore (aupdate (usageSeed stats) ufs) none
                  simp only [hU, hC, hR]
                  simpa [usageSeed, applyReasoning] using hc
            all_goals simp_all
      all_goals simp_all

/-- Claim C4 (amended): on every stats payload, the extraction equals the
    amended procedure: the usage record is seeded from the payload's
    top-level `tokens_prompt`/`tokens_completion`/`total_cost` (each
    defaulting to 0, reasoningTokens 0) rather than an all-zero record, then
    overlaid with any `usage` sub-object; reasoningTokens then takes the
    last match, in order, of `usage.completionTokensDetails.reasoningTokens`,
    the `nativeTokensDetails` candidate — its direct `reasoningTokens` when
    present, which excludes (elif) its nested `completionTokensDetails`
    probe — and the top-level `reasoningTokens`; a present non-dict
    sub-object raises, caught at the task-execution boundary; the worked
    37-example of the specification holds. -/
theorem c4_amended_usage_extraction (stats : List (String × JVal)) :
    extract_usage_from_stats stats = extract_usage_amended stats ∧
    extract_usage_from_stats stats37 = Except.ok
      [("prompt_tokens", JVal.jnum 0), ("completion_tokens", JVal.jnum 0),
       ("total_tokens", JVal.jnum 0), ("reasoning_tokens", JVal.jnum 37)] :=
  ⟨extract_usage_eq_amended stats, rfl⟩

/-- Claim C5: provider resolution is a deterministic function following
    exactly the order (a) exact match against the static table restricted to
    configured providers, (b) retries with each known provider namespace
    prepended, (c) the OpenRouter default when configured, (d) failure:
    the source's `get_provider_for_model` equals the stage-by-stage
    specification `resolveSpec` on every registry and model name. -/
theorem c5_resolution_order (reg : ProviderRegistry) (m : String) :
    get_provider_for_model reg m = resolveSpec reg m := by
  unfold get_provider_for_model resolveSpec
  rw [lookupConfigured_eq_restricted, tryNamespaces_eq_findSome]
  cases restrictedLookup reg m with
  | some pt => simp [Option.orElse]
  | none =>
      simp only [Option.orElse]
      cases List.findSome? (fun p => restrictedLookup reg (p ++ m)) providerNamespaces <;> simp

/-- Claim C6: for every task whose log starts consistent (counter equal to
    the log length, existing entries gap-free, in particular the empty log of
    a fresh task), the OpenRouter and Anthropic streaming loops only append —
    never truncate or reorder — and every index `j` of the resulting log
    carries sequence number `j`, for any line list (malformed lines included)
    and any cancellation timing; the full Executor path preserves the same
    gap-free property from a fresh task. -/
theorem c6_sequence_numbers_gap_free (cancelAt : Option Nat) (i clk : Nat)
    (lines : List SSELine) (t : BackgroundTask) (st : ProvState)
    (h1 : st.sequence_number = t.stream_events.length) (h2 : seqOk t.stream_events) :
    ((∃ s, (openRouterLoop cancelAt i t st clk lines).1.stream_events = t.stream_events ++ s) ∧
      seqOk (openRouterLoop cancelAt i t st clk lines).1.stream_events) ∧
    ((∃ s, (anthropicLoop cancelAt i t st clk lines).1.stream_events = t.stream_events ++ s) ∧
      seqOk (anthropicLoop cancelAt i t st clk lines).1.stream_events) ∧
    (t.stream_events = [] →
      ∀ (so : JVal → Option (List (String × JVal))) (msgId : String),
        seqOk (execute_task t lines cancelAt so msgId clk).stream_events) := by
  refine ⟨orLoop_inv lines cancelAt i t st clk h1 h2,
          anLoop_inv lines cancelAt i t st clk h1 h2, ?_⟩
  intro hnil so msgId
  rw [execute_task_stream_events]
  have hre : ({ t with status := TaskStatus.inProgress, started_at := some clk }
      : BackgroundTask).stream_events = [] := hnil
  exact (orLoop_inv lines cancelAt 0 _ provInit (clk + 1)
    (by rw [hre]; rfl) (by rw [hre]; exact seqOk_nil)).2

/-- Claim C6 witness: the gap-free conclusion evaluated on a fresh task, a
    three-line stream with a malformed line appended, and a cancel landing at
    line 1. -/
theorem c6_witness :
    ((∃ s, (openRouterLoop (some 1) 0 taskDemo provInit 0
        (linesDemo ++ [malformedLine])).1.stream_events = taskDemo.stream_events ++ s) ∧
      seqOk (openRouterLoop (some 1) 0 taskDemo provInit 0
        (linesDemo ++ [malformedLine])).1.stream_events) ∧
    ((∃ s, (anthropicLoop (some 1) 0 taskDemo provInit 0
        (linesDemo ++ [malformedLine])).1.stream_events = taskDemo.stream_events ++ s) ∧
      seqOk (anthropicLoop (some 1) 0 taskDemo provInit 0
        (linesDemo ++ [malformedLine])).1.stream_events) ∧
    (taskDemo.stream_events = [] →
      ∀ (so : JVal → Option (List (String × JVal))) (msgId : String),
        seqOk (execute_task taskDemo (linesDemo ++ [malformedLine]) (some 1) so msgId 0).stream_events) :=
  c6_sequence_numbers_gap_free (some 1) 0 0 (linesDemo ++ [malformedLine]) taskDemo provInit
    rfl (show seqOk taskDemo.stream_events from seqOk_nil)

/-- Claim C7 counterexample: a stream opened on a one-event in-progress log,
    during whose historical replay a second event is appended (the poll
    baseline reads length 2), yields only the first event and never the
    second, although the second was appended before the task's terminal
    point — so the claim that no event between cursor and terminal point is
    omitted is false on the code. -/
theorem c7_counterexample :
    stream_response storeStreamDemo "resp_s" none (TaskStatus.inProgress, 2) itersCx = [ev 0] ∧
    (∃ s, taskStreamDemo.stream_events ++ s = [ev 0, ev 1]) ∧
    ev 1 ∉ stream_response storeStreamDemo "resp_s" none (TaskStatus.inProgress, 2) itersCx := by
  have h : stream_response storeStreamDemo "resp_s" none (TaskStatus.inProgress, 2) itersCx
      = [ev 0] := by rfl
  refine ⟨h, ⟨[ev 1], rfl⟩, ?_⟩
  rw [h]
  simp [ev]

/-- Claim C7 (amended): opening a stream first yields the entry-log slice
    past the cursor synchronously, then polls only while the status reads
    non-terminal, the sequence ending at the first terminal read; when no
    event is appended during the replay or during the yield bursts (the poll
    baseline and each late length re-read match the log just yielded) and
    each polled log extends the previous one, the total yield is exactly the
    last polled log past the cursor — events appended during replay or after
    the last non-terminal poll may be omitted. -/
theorem c7_amended_stream_replay (tasks : List (String × BackgroundTask)) (rid : String)
    (after : Option Nat) (first : TaskStatus × Nat) (iters : List PollIter)
    (t : BackgroundTask)
    (h1 : alookup tasks rid = some t)
    (h2 : startIdxOf after ≤ t.stream_events.length)
    (h3 : first.1 = TaskStatus.queued ∨ first.1 = TaskStatus.inProgress)
    (h4 : first.2 = t.stream_events.length)
    (h5 : quiet t.stream_events iters) :
    stream_response tasks rid after first iters
      = (lastLogD t.stream_events iters).drop (startIdxOf after) ∧
    (∀ (last : Nat) (it : PollIter) (rest : List PollIter),
      ¬(it.status = TaskStatus.queued ∨ it.status = TaskStatus.inProgress) →
      streamPoll last (it :: rest) = []) := by
  constructor
  · unfold stream_response
    rw [h1]
    dsimp only
    rw [if_pos h3, h4, streamPoll_quiet iters t.stream_events h5]
    rcases lastLogD_extends iters t.stream_events h5 with ⟨s2, h6⟩
    rw [h6, List.drop_left, List.drop_append_of_le_length h2]
  · intro last it rest hterm
    unfold streamPoll
    rw [if_neg hterm]

/-- Claim C7 witness: the amended replay evaluated on a two-event log with
    cursor 0 and one quiescent poll that saw a third event appended, plus a
    terminal poll iteration yielding nothing. -/
theorem c7_witness :
    stream_response storeStreamQuiet "resp_q" (some 0) (TaskStatus.inProgress, 2) itersQuiet
      = (lastLogD taskStreamQuiet.stream_events itersQuiet).drop (startIdxOf (some 0)) ∧
    stream_response storeStreamQuiet "resp_q" (some 0) (TaskStatus.inProgress, 2) itersQuiet
      = [ev 1, ev 2] ∧
    streamPoll 0 ({ status := TaskStatus.completed, log := [], lateLen := 0 } :: []) = [] := by
  have h := c7_amended_stream_replay storeStreamQuiet "resp_q" (some 0)
    (TaskStatus.inProgress, 2) itersQuiet taskStreamQuiet rfl
    (by simp [startIdxOf, taskStreamQuiet]) (Or.inr rfl) rfl
    ⟨⟨[ev 2], rfl⟩, rfl, Or.inr rfl, trivial⟩
  exact ⟨h.1, by rw [h.1]; rfl, h.2 0 _ [] (by simp)⟩

/-- Claim C8: a received line that passes the `data: ` framing checks but
    fails JSON parsing is skipped locally in all three provider loops: the
    task, the local state (buffers and sequence counter) and the clock are
    unchanged, no event is appended, and the loop does not stop, so
    subsequent sequence numbers stay contiguous. -/
theorem c8_malformed_line_skipped (t : BackgroundTask) (st : ProvState) (clk : Nat)
    (l : SSELine)
    (h1 : pyStrip l.content ≠ "") (h2 : pyStartsWith (pyStrip l.content) "data: " = true)
    (h3 : (pyStrip l.content).drop 6 ≠ "[DONE]") (h4 : l.parsed = none) :
    openRouterStep t st clk l = (t, st, clk, false) ∧
    openAIStep t st clk l = (t, st, clk, false) ∧
    anthropicStep t st clk l = (t, st, clk, false) := by
  unfold openRouterStep openAIStep anthropicStep
  rw [h4]
  simp [h1, h2, h3]

/-- Claim C8 witness: the skip evaluated on the concrete unparseable line
    `data: notjson`. -/
theorem c8_witness :
    openRouterStep taskDemo provInit 0 malformedLine = (taskDemo, provInit, 0, false) ∧
    openAIStep taskDemo provInit 0 malformedLine = (taskDemo, provInit, 0, false) ∧
    anthropicStep taskDemo provInit 0 malformedLine = (taskDemo, provInit, 0, false) :=
  c8_malformed_line_skipped taskDemo provInit 0 malformedLine (by decide) (by decide)
    (by decide) rfl

/-- Claim C9: for an identifier not in the Task Store, the public operations
    are total and side-effect free: retrieve returns none, cancel returns
    none and leaves the store unchanged, stream replay yields the empty
    sequence. -/
theorem c9_missing_id_total (tasks : List (String × BackgroundTask)) (rid : String)
    (clk : Nat) (after : Option Nat) (first : TaskStatus × Nat) (iters : List PollIter)
    (h : alookup tasks rid = none) :
    retrieve_response tasks rid = none ∧
    cancel_response tasks rid clk = (none, tasks) ∧
    stream_response tasks rid after first iters = [] := by
  refine ⟨h, ?_, ?_⟩
  · unfold cancel_response; rw [h]
  · unfold stream_response; rw [h]

/-- Claim C9 witness: the three operations evaluated on an empty store and
    the identifier `nope`. -/
theorem c9_witness :
    retrieve_response [] "nope" = none ∧
    cancel_response [] "nope" 5 = (none, []) ∧
    stream_response [] "nope" none (TaskStatus.queued, 0) [] = [] :=
  c9_missing_id_total [] "nope" 5 none (TaskStatus.queued, 0) [] rfl

/-- Claim C10: cancel mutates only `status` and `completed_at` — id, model,
    input, reasoning, events, outputText, output, usage, createdAt and
    startedAt are unchanged — and only when the status is queued or in
    progress; on a terminal task it changes nothing and returns the task
    as-is, and it is idempotent. -/
theorem c10_cancel_frame (t : BackgroundTask) (clk clk2 : Nat) :
    ((cancelUpdate clk t).id = t.id ∧ (cancelUpdate clk t).model = t.model ∧
     (cancelUpdate clk t).input = t.input ∧ (cancelUpdate clk t).reasoning = t.reasoning ∧
     (cancelUpdate clk t).stream_events = t.stream_events ∧
     (cancelUpdate clk t).output_text = t.output_text ∧
     (cancelUpdate clk t).output = t.output ∧ (cancelUpdate clk t).usage = t.usage ∧
     (cancelUpdate clk t).created_at = t.created_at ∧
     (cancelUpdate clk t).started_at = t.started_at) ∧
    ((t.status = TaskStatus.queued ∨ t.status = TaskStatus.inProgress) →
      (cancelUpdate clk t).status = TaskStatus.cancelled ∧
      (cancelUpdate clk t).completed_at = some clk) ∧
    (t.status.isTerminal = true → cancelUpdate clk t = t) ∧
    cancelUpdate clk2 (cancelUpdate clk t) = cancelUpdate clk t := by
  by_cases hq : t.status = TaskStatus.queued ∨ t.status = TaskStatus.inProgress
  · refine ⟨?_, fun _ => ?_, fun ht => ?_, ?_⟩
    · simp [cancelUpdate, hq]
    · simp [cancelUpdate, hq]
    · rcases hq with h | h <;> rw [h] at ht <;> exact absurd ht (by decide)
    · simp [cancelUpdate, hq]
  · refine ⟨?_, fun h => absurd h hq, fun _ => ?_, ?_⟩
    · simp [cancelUpdate, hq]
    · simp [cancelUpdate, hq]
    · simp [cancelUpdate, hq]

/-- Claim C10 witness: cancel evaluated on a queued task (cancels and stamps
    the time, idempotently) and on a completed task (returned as-is). -/
theorem c10_witness :
    (cancelUpdate 5 taskDemo).status = TaskStatus.cancelled ∧
    (cancelUpdate 5 taskDemo).completed_at = some 5 ∧
    cancelUpdate 7 (cancelUpdate 5 taskDemo) = cancelUpdate 5 taskDemo ∧
    cancelUpdate 5 taskDone = taskDone :=
  ⟨((c10_cancel_frame taskDemo 5 7).2.1 (Or.inl rfl)).1,
   ((c10_cancel_frame taskDemo 5 7).2.1 (Or.inl rfl)).2,
   (c10_cancel_frame taskDemo 5 7).2.2.2,
   (c10_cancel_frame taskDone 5 5).2.2.1 rfl⟩

end Wavelength
